import Mathlib

/-!
Shallow embedding of the pytorch-ssd training repository
(`train_ssd.py` and `vision/datasets/open_images.py`) in Lean 4,
together with theorems settling the specification claims.

Conventions of the embedding:
* Python floats are modelled as rationals (`ℚ`).
* Python exceptions are modelled with `Except`; a function that can raise
  returns `Except E A`.
* `np.random.choice(len(xs), m)` (sampling with replacement) is modelled by a
  choice oracle: a function giving, for each class, the list of chosen
  positions; every achievable outcome corresponds to some valid oracle.
* Python `set`s of image indices are modelled by canonical lists: a set built
  by inserting indices drawn from `range(len(data))` is represented as the
  increasing enumeration of its members, and iteration (`list(s)`,
  `for i in s`) runs in that increasing order.  The claims below depend only
  on the underlying sets, not on the iteration order.
-/

namespace PytorchSSD

/-- One per-image record of `OpenImagesDataset.self.data`:
`{'image_id': ..., 'boxes': ..., 'labels': ...}` built in `_read_data`. -/
structure ImageRecord where
  image_id : String
  boxes : List (ℚ × ℚ × ℚ × ℚ)
  labels : List ℕ
deriving Repr, DecidableEq, Inhabited

/-- One row of the bounding-box annotation CSV consumed by `_read_data`:
columns `ImageID`, `ClassName`, `XMin`, `YMin`, `XMax`, `YMax`. -/
structure AnnotationRow where
  imageId : String
  className : String
  box : ℚ × ℚ × ℚ × ℚ
deriving Repr, DecidableEq, Inhabited

/-- State of the annotation source as seen by `pd.read_csv`:
the file can be absent, syntactically malformed, or parse into a list of
rows (possibly empty when only the header is present). -/
inductive CsvSource where
  | missing : CsvSource
  | malformed : CsvSource
  | parsed : List AnnotationRow → CsvSource
deriving DecidableEq

/-- Errors raised by pandas inside `_read_data`: `FileNotFoundError` for a
missing file, `ParserError` for a malformed one. -/
inductive PandasError where
  | fileNotFound : PandasError
  | parserError : PandasError
deriving Repr, DecidableEq

/-- First-seen unique order of a list of names:
`list(annotations['ClassName'].unique())`. -/
def firstSeenUnique (l : List String) : List String :=
  l.foldl (fun acc n => if n ∈ acc then acc else acc ++ [n]) []

/-- Label integer of a class name: `class_dict[name] = index in class_names + 1`
(1-based; 0 is background). -/
def classIndex (names : List String) (n : String) : ℕ :=
  names.indexOf n + 1

/-- Strict codepoint comparison of two characters. -/
def charLtB (a b : Char) : Bool := decide (a.val.toNat < b.val.toNat)

/-- Lexicographic order on character lists by codepoint — the order Python
uses to compare the strings pandas sorts group keys by. -/
def listCharLeB : List Char → List Char → Bool
  | [], _ => true
  | _ :: _, [] => false
  | a :: as, b :: bs =>
      if charLtB a b then true
      else if charLtB b a then false
      else listCharLeB as bs

/-- Lexicographic codepoint order on strings. -/
def strLeB (a b : String) : Bool := listCharLeB a.data b.data

/-- Group keys of `annotations.groupby("ImageID")`: the distinct image ids,
in sorted order (pandas `groupby` sorts its keys). -/
def groupKeys (rows : List AnnotationRow) : List String :=
  ((rows.map (fun r => r.imageId)).dedup).insertionSort
    (fun a b => strLeB a b)

/-- Embedding of `OpenImagesDataset._read_data`: read the annotation CSV for
the split, derive the class vocabulary in first-seen order, and group rows by
image id into `ImageRecord`s (boxes and labels in row encounter order within
each group).  A missing or malformed file makes pandas raise; a parsed file
with zero rows yields an empty dataset and an empty vocabulary. -/
def read_data (src : CsvSource) :
    Except PandasError (List ImageRecord × List String) :=
  match src with
  | .missing => .error .fileNotFound
  | .malformed => .error .parserError
  | .parsed rows =>
      let names := firstSeenUnique (rows.map (fun r => r.className))
      let data := (groupKeys rows).map (fun id =>
        let grp := rows.filter (fun r => r.imageId == id)
        { image_id := id
          boxes := grp.map (fun r => r.box)
          labels := grp.map (fun r => classIndex names r.className) })
      .ok (data, names)

/-! Embedding of `OpenImagesDataset._balance_data`.  `data` is `self.data`
(a list of `ImageRecord`) and `numClasses` is `len(self.class_names)`. -/

/-- Contents of the Python set `label_image_indexes[c]` after the first loop
of `_balance_data` — the indices of images containing at least one box of
class label `c` — represented canonically as its increasing enumeration
(which is also the iteration order of `list(image_indexes)`). -/
def labelImageIndexes (data : List ImageRecord) (c : ℕ) : List ℕ :=
  (List.range data.length).filter
    (fun i => decide (c ∈ (data.getD i default).labels))

/-- Per-class image counts `label_stat[1:]`, for classes `1..numClasses`. -/
def labelStat (data : List ImageRecord) (numClasses : ℕ) : List ℕ :=
  (List.range numClasses).map (fun k => (labelImageIndexes data (k + 1)).length)

/-- Value of `self.min_image_num = min(label_stat[1:])`; `none` models the
`ValueError` Python raises on `min` of an empty list (zero classes). -/
def minImageNum (data : List ImageRecord) (numClasses : ℕ) : Option ℕ :=
  (labelStat data numClasses).min?

/-- Validity of a choice oracle for `np.random.choice(len(image_indexes),
min_image_num)`: for every class `c` in `1..numClasses`, exactly
`m` positions are drawn, each below the class's image count.  Positions may
repeat (sampling is with replacement).  When a class has count `0` and
`m > 0`, no oracle is valid, mirroring the `ValueError` numpy raises when
asked to sample from an empty population. -/
def ValidChoices (data : List ImageRecord) (numClasses m : ℕ)
    (choices : ℕ → List ℕ) : Prop :=
  ∀ c ∈ Finset.Icc 1 numClasses,
    (choices c).length = m ∧
    ∀ p ∈ choices c, p < (labelImageIndexes data c).length

instance (data : List ImageRecord) (numClasses m : ℕ)
    (choices : ℕ → List ℕ) :
    Decidable (ValidChoices data numClasses m choices) := by
  unfold ValidChoices; infer_instance

/-- Indices contributed to `sample_image_indexes` by class `c`'s draw:
`image_indexes[i] for i in choice` (possibly with repetitions; the target
set collapses them). -/
def classSample (data : List ImageRecord) (choices : ℕ → List ℕ) (c : ℕ) :
    List ℕ :=
  (choices c).map (fun p => (labelImageIndexes data c).getD p 0)

/-- Members of the Python set `sample_image_indexes`: the union of the
per-class samples over classes `1..numClasses` (listed with repetitions;
membership in this list is membership in the set). -/
def sampleImageIndexes (data : List ImageRecord) (numClasses : ℕ)
    (choices : ℕ → List ℕ) : List ℕ :=
  (List.range numClasses).flatMap (fun k => classSample data choices (k + 1))

/-- Embedding of `_balance_data`'s result
`sample_data = [self.data[i] for i in sample_image_indexes]`: the images at
the sampled index set, each once, in increasing index order (for any valid
oracle every sampled index lies below `data.length`). -/
def balance_data (data : List ImageRecord) (numClasses : ℕ)
    (choices : ℕ → List ℕ) : List ImageRecord :=
  ((List.range data.length).filter
      (fun i => decide (i ∈ sampleImageIndexes data numClasses choices))).map
    (fun i => data.getD i default)

/-- Number of images in a dataset containing at least one box of class `c`. -/
def numImagesWithClass (l : List ImageRecord) (c : ℕ) : ℕ :=
  l.countP (fun r => decide (c ∈ r.labels))

/-! Embedding of `OpenImagesDataset._read_image`. -/

/-- A decoded image as `cv2.imread` returns it: an array with a channel
count (`shape[2]`); pixel contents are irrelevant to the claims and are
abstracted to a colour-space tag. -/
structure RawImage where
  height : ℕ
  width : ℕ
  channels : ℕ
deriving Repr, DecidableEq

/-- Error raised inside `_read_image` when the image file is missing or
cannot be decoded: `cv2.imread` returns `None` and the subsequent
`image.shape` access raises `AttributeError`. -/
inductive ImageReadError where
  | noneTypeAttribute : ImageReadError
deriving Repr, DecidableEq

/-- Embedding of `_read_image`: look up the decoded image at
`root/dataset_type/image_id.jpg` (the filesystem-plus-decoder is the map
`fs`, yielding `none` for a missing or undecodable file).  A present image
is colour-converted: 1 channel expands to 3 (GRAY2RGB), otherwise the
channel order flips BGR→RGB keeping 3 channels.  The returned Bool records
whether the grayscale branch ran. -/
def read_image (fs : String → Option RawImage)
    (root dataset_type image_id : String) :
    Except ImageReadError (RawImage × Bool) :=
  match fs (root ++ "/" ++ dataset_type ++ "/" ++ image_id ++ ".jpg") with
  | none => .error .noneTypeAttribute
  | some im =>
      if im.channels = 1 then
        .ok ({ im with channels := 3 }, true)
      else
        .ok (im, false)

/-! Embedding of `train` from `train_ssd.py` (the loss bookkeeping; the
model forward/backward pass and the optimizer update are opaque side
effects that do not enter the returned averages). -/

/-- One batch as the loss computation sees it: the number of samples in the
batch and the two scalar losses the criterion returned for it. -/
structure Batch where
  numSamples : ℕ
  regressionLoss : ℚ
  classificationLoss : ℚ
deriving Repr, DecidableEq

/-- Loop state of `train`: `(epoch_loss, epoch_regression_loss,
epoch_classification_loss, epoch_steps)`. -/
def trainStep (acc : ℚ × ℚ × ℚ × ℕ) (b : Batch) : ℚ × ℚ × ℚ × ℕ :=
  (acc.1 + (b.regressionLoss + b.classificationLoss),
   acc.2.1 + b.regressionLoss,
   acc.2.2.1 + b.classificationLoss,
   acc.2.2.2 + 1)

/-- Embedding of `train`: accumulate the per-batch losses over the loader
and divide each epoch total by `len(loader)` (the number of batches).  The
short-window `running_*` accumulators feed only the debug log and are
omitted; `epoch_steps` is accumulated as in the source but unused by the
returned averages. -/
def train (loader : List Batch) : ℚ × ℚ × ℚ :=
  let acc := loader.foldl trainStep (0, 0, 0, 0)
  (acc.1 / loader.length, acc.2.1 / loader.length, acc.2.2.1 / loader.length)

/-! Embedding of the learning-rate configuration and optimizer parameter
groups set up in the `__main__` block of `train_ssd.py`. -/

/-- Learning-rate related command-line arguments after argparse parsing.
`--lr` has default `0.01`; `--base-net-lr` has default `0.001` (a number,
not `None`); `--extra-layers-lr` has default `None`. -/
structure LrArgs where
  lr : ℚ
  base_net_lr : Option ℚ
  extra_layers_lr : Option ℚ
deriving Repr, DecidableEq

/-- Argparse semantics for the three learning-rate options: each `cli*`
argument is `some v` when the user passed the option and `none` when they
did not, in which case the parser default applies. -/
def parseLrArgs (cliLr cliBase cliExtra : Option ℚ) : LrArgs :=
  { lr := cliLr.getD (1 / 100)
    base_net_lr := some (cliBase.getD (1 / 1000))
    extra_layers_lr := cliExtra }

/-- Resolution `base_net_lr = args.base_net_lr if args.base_net_lr is not
None else args.lr`. -/
def base_net_lr (a : LrArgs) : ℚ := a.base_net_lr.getD a.lr

/-- Resolution `extra_layers_lr = args.extra_layers_lr if
args.extra_layers_lr is not None else args.lr`. -/
def extra_layers_lr (a : LrArgs) : ℚ := a.extra_layers_lr.getD a.lr

/-- Per-group learning rates of the `params` passed to `torch.optim.SGD`,
following the `if args.freeze_base_net / elif args.freeze_net / else`
chain: `some r` is a group dict with an explicit `'lr': r`; `none` is a
group without one (SGD fills in the global default `args.lr`).  Under
`freeze_net` a bare parameter iterator is passed, which SGD wraps into a
single group with the default learning rate. -/
def paramGroupLrs (freeze_base_net freeze_net : Bool) (a : LrArgs) :
    List (Option ℚ) :=
  if freeze_base_net then
    [some (extra_layers_lr a), none]
  else if freeze_net then
    [none]
  else
    [some (base_net_lr a), some (extra_layers_lr a), none]

/-- Learning rate SGD records for a group: the group's own `'lr'` if
present, else the optimizer-level default `args.lr`. -/
def effectiveLr (a : LrArgs) (g : Option ℚ) : ℚ := g.getD a.lr

/-- Unconditional startup reads
`o_lr = optimizer.param_groups[2]['lr']`,
`o_b_lr = optimizer.param_groups[0]['lr']`,
`o_el_lr = optimizer.param_groups[1]['lr']`; `none` models the `IndexError`
raised when a read index does not exist. -/
def startupLrRead (a : LrArgs) (groups : List (Option ℚ)) :
    Option (ℚ × ℚ × ℚ) :=
  match groups.get? 2, groups.get? 0, groups.get? 1 with
  | some g2, some g0, some g1 =>
      some (effectiveLr a g2, effectiveLr a g0, effectiveLr a g1)
  | _, _, _ => none

/-! Embedding of checkpoint resume and the epoch loop of `train_ssd.py`. -/

/-- Contents of a checkpoint file as `torch.load` returns it: the blob
holds model weights, the optimizer state dict, and the recorded training
epoch.  Weights and optimizer state are opaque; natural-number handles
stand for them. -/
structure Checkpoint where
  weights : ℕ
  optimizer_state_dict : ℕ
  training_epoch : ℕ
deriving Repr, DecidableEq

/-- Training state right before the epoch loop: which weights the network
holds, which state the optimizer holds, and the `last_epoch` / `r_epoch`
counters. -/
structure TrainState where
  netWeights : ℕ
  optState : ℕ
  lastEpoch : ℤ
  rEpoch : ℕ
deriving Repr, DecidableEq

/-- Modelled from the spec: `net.load` (defined in `vision/ssd/ssd.py`,
which is not part of the provided sources) restores the model weights
stored in the checkpoint file. -/
def netLoad (ckpt : Checkpoint) : ℕ := ckpt.weights

/-- Startup state for a resumed run: `net.load(args.resume)` restores the
weights, `optimizer.load_state_dict(torch.load(args.resume)
['optimizer_state_dict'])` restores the optimizer, and
`r_epoch = torch.load(args.resume)['training_epoch']`,
`last_epoch = r_epoch` set the counters — all four from the same file. -/
def resumeSetup (ckpt : Checkpoint) : TrainState :=
  { netWeights := netLoad ckpt
    optState := ckpt.optimizer_state_dict
    lastEpoch := (ckpt.training_epoch : ℤ)
    rEpoch := ckpt.training_epoch }

/-- Startup state as a function of `args.resume`: without a resume
checkpoint the counters keep their initial values `last_epoch = -1`,
`r_epoch = 0` and the fresh weights/optimizer state remain. -/
def initialState (resume : Option Checkpoint) (freshW freshO : ℕ) :
    TrainState :=
  match resume with
  | some ckpt => resumeSetup ckpt
  | none => { netWeights := freshW, optState := freshO,
              lastEpoch := -1, rEpoch := 0 }

/-- Epochs executed by
`for epoch in range(last_epoch + 1, args.num_epochs + r_epoch + 1)`. -/
def loopEpochs (st : TrainState) (numEpochs : ℕ) : List ℤ :=
  (List.range (numEpochs + st.rEpoch + 1 - (st.lastEpoch + 1)).toNat).map
    (fun k => st.lastEpoch + 1 + (k : ℤ))

/-- Static configuration of the epoch loop.  `valLoss e` is the validation
loss `test` would report at epoch `e` (an opaque input to the loop's
bookkeeping). -/
structure LoopConfig where
  numEpochs : ℕ
  validationEpochs : ℕ
  checkpointEpochs : ℕ
  valLoss : ℤ → ℚ

/-- Condition `epoch % args.validation_epochs == 0 or
epoch == args.num_epochs - 1` guarding validation. -/
def shouldValidate (cfg : LoopConfig) (e : ℤ) : Bool :=
  e % (cfg.validationEpochs : ℤ) == 0 || e == (cfg.numEpochs : ℤ) - 1

/-- Condition `epoch % args.checkpoint_epochs == 0 or
epoch == args.num_epochs - 1` guarding the checkpoint save. -/
def shouldCheckpoint (cfg : LoopConfig) (e : ℤ) : Bool :=
  e % (cfg.checkpointEpochs : ℤ) == 0 || e == (cfg.numEpochs : ℤ) - 1

/-- Observable events of one iteration of the epoch loop.  `savedFile`
is `some (fname, blobEpoch)` when `net.save(model_path, optimizer, epoch)`
ran: `fname` is the `(epoch, val_loss)` pair encoded in the `model_path`
filename (or `none` when `model_path` was never assigned, in which case the
save line raises `NameError`), and `blobEpoch` is the epoch number passed to
`net.save` and stored in the blob.  `schedulerStepArgs` lists the arguments
of the `scheduler.step` calls made during the iteration. -/
structure EpochResult where
  epoch : ℤ
  validated : Bool
  savedFile : Option (Option (ℤ × ℚ) × ℤ)
  schedulerStepArgs : List ℚ
deriving DecidableEq

/-- One iteration of the epoch loop, carrying the `model_path` variable
across iterations: `val_loss = 0` is reset at the top; validation (when due)
recomputes `val_loss` and reassigns `model_path` with the current epoch and
loss; the checkpoint branch (when due) saves to the current `model_path`
with the current epoch in the blob; the iteration ends with exactly one
`scheduler.step(val_loss)`. -/
def epochStep (cfg : LoopConfig) (modelPath : Option (ℤ × ℚ)) (e : ℤ) :
    EpochResult × Option (ℤ × ℚ) :=
  let validated := shouldValidate cfg e
  let mp := if validated then some (e, cfg.valLoss e) else modelPath
  let saved := if shouldCheckpoint cfg e then some (mp, e) else none
  let arg := if validated then cfg.valLoss e else 0
  ({ epoch := e, validated := validated, savedFile := saved,
     schedulerStepArgs := [arg] }, mp)

/-- Run the epoch loop over a list of epochs, threading `model_path`. -/
def runLoop (cfg : LoopConfig) : List ℤ → Option (ℤ × ℚ) → List EpochResult
  | [], _ => []
  | e :: es, mp =>
      let r := epochStep cfg mp e
      r.1 :: runLoop cfg es r.2

/-- The whole training loop for a startup state: iterate over `loopEpochs`
with `model_path` initially unassigned. -/
def trainingRun (cfg : LoopConfig) (st : TrainState) : List EpochResult :=
  runLoop cfg (loopEpochs st cfg.numEpochs) none

/-- Errors that abort startup before the epoch loop. -/
inductive StartupError where
  | indexError : StartupError
deriving Repr, DecidableEq

/-- Startup-then-loop control flow: the `o_lr` reads at lines 405–407 run
unconditionally after the optimizer is built and before the epoch loop;
when they raise `IndexError` no epoch is executed. -/
def mainFlow (freeze_base_net freeze_net : Bool) (a : LrArgs)
    (cfg : LoopConfig) (st : TrainState) :
    Except StartupError (List EpochResult) :=
  match startupLrRead a (paramGroupLrs freeze_base_net freeze_net a) with
  | none => .error .indexError
  | some _ => .ok (trainingRun cfg st)

/-! Theorems settling the claims. -/

/-- C8: for every index whose image file is missing or cannot be decoded
(`cv2.imread` returns `None`), `_read_image` fails with a surfaced error for
that sample (the `AttributeError` raised by `image.shape` on `None`) rather
than returning anything. -/
theorem c8_unreadable_image_fails
    (fs : String → Option RawImage) (root dataset_type image_id : String)
    (h : fs (root ++ "/" ++ dataset_type ++ "/" ++ image_id ++ ".jpg")
          = none) :
    read_image fs root dataset_type image_id
      = .error .noneTypeAttribute := by
  unfold read_image
  rw [h]

/-- Witness for C8: a filesystem with no decodable files makes the read of
image `i0` of the train split fail. -/
theorem c8_unreadable_image_fails_witness :
    read_image (fun _ => none) "data" "train" "i0"
      = .error .noneTypeAttribute :=
  c8_unreadable_image_fails (fun _ => none) "data" "train" "i0" rfl

/-- Accumulation lemma for `train`: folding `trainStep` adds the three loss
sums and the batch count to the initial accumulator. -/
theorem foldl_trainStep_eq (l : List Batch) (a : ℚ × ℚ × ℚ × ℕ) :
    l.foldl trainStep a =
      (a.1 + (l.map (fun b => b.regressionLoss + b.classificationLoss)).sum,
       a.2.1 + (l.map (fun b => b.regressionLoss)).sum,
       a.2.2.1 + (l.map (fun b => b.classificationLoss)).sum,
       a.2.2.2 + l.length) := by
  induction l generalizing a with
  | nil => simp
  | cons b bs ih =>
      simp only [List.foldl_cons, List.map_cons, List.sum_cons, List.length_cons, ih, trainStep]
      refine Prod.ext ?_ (Prod.ext ?_ (Prod.ext ?_ ?_)) <;> simp <;> ring

/-- C7: for a loader with at least one batch, the three averages returned by
`train` are the per-batch loss sums divided by the number of batches in the
loader (`len(loader)`), not by the number of samples: the batch sizes do not
enter the result. -/
theorem c7_train_divides_by_batch_count (loader : List Batch)
    (_h : loader ≠ []) :
    train loader =
      ((loader.map (fun b => b.regressionLoss + b.classificationLoss)).sum
          / loader.length,
       (loader.map (fun b => b.regressionLoss)).sum / loader.length,
       (loader.map (fun b => b.classificationLoss)).sum / loader.length) := by
  unfold train
  rw [foldl_trainStep_eq]
  simp

/-- Batches for the C7 witness: sizes 4 and 2, distinct losses. -/
def loaderC7 : List Batch :=
  [ { numSamples := 4, regressionLoss := 1, classificationLoss := 2 }
  , { numSamples := 2, regressionLoss := 3, classificationLoss := 5 } ]

/-- Witness for C7: on a loader of two batches (6 samples in total) the
averages divide the sums 11, 4, 7 by the batch count 2, not by 6. -/
theorem c7_train_divides_by_batch_count_witness :
    train loaderC7 = (11 / 2, 2, 7 / 2) := by
  rw [c7_train_divides_by_batch_count loaderC7 (by decide)]
  norm_num [loaderC7]

/-- C2 counterexample: with no learning-rate option configured, the backbone
parameter group is created with lr `0.001` (the parser default of
`--base-net-lr`), not the global lr `0.01`. -/
theorem c2_backbone_default_counterexample :
    (parseLrArgs none none none).lr = 1 / 100 ∧
    (paramGroupLrs false false (parseLrArgs none none none)).getD 0 none
      = some (1 / 1000) ∧
    ¬ ((1 : ℚ) / 1000 = 1 / 100) := by
  refine ⟨rfl, ?_, by norm_num⟩
  simp [paramGroupLrs, parseLrArgs, base_net_lr]

/-- C2 amended: when not explicitly configured, the extra-layers group's
learning rate (and the prediction-heads group's) equals the global `lr`,
but the backbone group's learning rate is the constant parser default
`0.001`, independent of the global `lr`. -/
theorem c2_lr_defaults (cliLr : Option ℚ) :
    effectiveLr (parseLrArgs cliLr none none)
        ((paramGroupLrs false false (parseLrArgs cliLr none none)).getD 1 none)
      = (parseLrArgs cliLr none none).lr ∧
    effectiveLr (parseLrArgs cliLr none none)
        ((paramGroupLrs false false (parseLrArgs cliLr none none)).getD 2 none)
      = (parseLrArgs cliLr none none).lr ∧
    (paramGroupLrs false false (parseLrArgs cliLr none none)).getD 0 none
      = some (1 / 1000) := by
  refine ⟨?_, ?_, ?_⟩ <;>
    simp [paramGroupLrs, parseLrArgs, effectiveLr, extra_layers_lr,
      base_net_lr]

/-- C4 counterexample: an annotation source that parses to zero rows (a
header-only CSV) does not fail — `_read_data` silently returns an empty
dataset and an empty class vocabulary. -/
theorem c4_empty_source_counterexample :
    read_data (.parsed []) = .ok ([], []) := rfl

/-- C4 amended: a missing annotation source fails with `FileNotFoundError`
and a malformed one with a parser error (surfaced, `DataLoadError`-like),
but an empty source (zero rows, hence zero images and zero classes) silently
produces an empty dataset. -/
theorem c4_data_load_errors :
    read_data .missing = .error .fileNotFound ∧
    read_data .malformed = .error .parserError ∧
    read_data (.parsed []) = .ok ([], []) :=
  ⟨rfl, rfl, rfl⟩

/-- C10: under `freeze_base_net` the optimizer gets two parameter groups and
under `freeze_net` (alone) a single one, so the unconditional startup read
of `param_groups[2]` (and of `param_groups[1]` in the one-group case) hits a
missing index and startup fails with `IndexError` before any epoch runs;
only the no-freeze configuration builds the three groups the read assumes,
and only then does the epoch loop execute. -/
theorem c10_freeze_flags_break_startup (fb fn : Bool) (a : LrArgs)
    (cfg : LoopConfig) (st : TrainState) :
    ((fb || fn) = true →
        mainFlow fb fn a cfg st = .error .indexError) ∧
    (fb = false → fn = false →
        mainFlow fb fn a cfg st = .ok (trainingRun cfg st)) ∧
    (fb = true →
        (paramGroupLrs fb fn a).length = 2 ∧
        (paramGroupLrs fb fn a).get? 2 = none) ∧
    (fb = false → fn = true →
        (paramGroupLrs fb fn a).length = 1 ∧
        (paramGroupLrs fb fn a).get? 1 = none ∧
        (paramGroupLrs fb fn a).get? 2 = none) := by
  cases fb <;> cases fn <;>
    simp [mainFlow, paramGroupLrs, startupLrRead]

/-- Concrete arguments for the C10 witness. -/
def argsC10 : LrArgs := parseLrArgs none none none

/-- Concrete loop configuration for the C10 witness. -/
def cfgC10 : LoopConfig :=
  { numEpochs := 1, validationEpochs := 1, checkpointEpochs := 1,
    valLoss := fun _ => 0 }

/-- Concrete fresh startup state for the C10 witness. -/
def stC10 : TrainState := initialState none 0 0

/-- Witness for C10: a `freeze_net` run fails at startup with `IndexError`
and runs no epoch. -/
theorem c10_freeze_flags_break_startup_witness :
    mainFlow false true argsC10 cfgC10 stC10 = .error .indexError :=
  (c10_freeze_flags_break_startup false true argsC10 cfgC10 stC10).1 rfl

/-- C3: resuming from a checkpoint restores the model weights, the optimizer
state and the epoch counter all from that same checkpoint, and the first
epoch the training loop executes is the stored epoch plus one. -/
theorem c3_resume_restores_and_continues (ckpt : Checkpoint)
    (freshW freshO numEpochs : ℕ) (h : 1 ≤ numEpochs) :
    (initialState (some ckpt) freshW freshO).netWeights = netLoad ckpt ∧
    (initialState (some ckpt) freshW freshO).optState
      = ckpt.optimizer_state_dict ∧
    (initialState (some ckpt) freshW freshO).lastEpoch
      = (ckpt.training_epoch : ℤ) ∧
    (loopEpochs (initialState (some ckpt) freshW freshO) numEpochs).head?
      = some ((ckpt.training_epoch : ℤ) + 1) := by
  refine ⟨rfl, rfl, rfl, ?_⟩
  unfold loopEpochs initialState resumeSetup
  have hcount :
      (((numEpochs : ℤ) + (ckpt.training_epoch : ℤ) + 1
          - ((ckpt.training_epoch : ℤ) + 1)).toNat) = numEpochs := by
    omega
  obtain ⟨m, rfl⟩ : ∃ m, numEpochs = m + 1 := ⟨numEpochs - 1, by omega⟩
  simp only [hcount, List.range_succ_eq_map, List.map_cons, List.head?_cons]
  simp

/-- Checkpoint recorded at epoch 5, for the C3 witness. -/
def ckptC3 : Checkpoint :=
  { weights := 17, optimizer_state_dict := 23, training_epoch := 5 }

/-- Witness for C3: resuming from a checkpoint recorded at epoch 5 restores
weights 17, optimizer state 23 and counter 5, and the loop's first executed
epoch is 6. -/
theorem c3_resume_restores_and_continues_witness :
    (initialState (some ckptC3) 0 0).netWeights = netLoad ckptC3 ∧
    (initialState (some ckptC3) 0 0).optState
      = ckptC3.optimizer_state_dict ∧
    (initialState (some ckptC3) 0 0).lastEpoch
      = (ckptC3.training_epoch : ℤ) ∧
    (loopEpochs (initialState (some ckptC3) 0 0) 30).head?
      = some ((ckptC3.training_epoch : ℤ) + 1) :=
  c3_resume_restores_and_continues ckptC3 0 0 30 (by decide)

/-- Invariant of `runLoop` behind C9: every iteration records exactly the
one `scheduler.step` call of the loop body, whose argument is the fresh
validation loss on validation epochs and the reset value `0` otherwise. -/
theorem runLoop_schedulerStep (cfg : LoopConfig) (es : List ℤ)
    (mp : Option (ℤ × ℚ)) :
    ∀ r ∈ runLoop cfg es mp,
      r.validated = shouldValidate cfg r.epoch ∧
      r.schedulerStepArgs
        = [if shouldValidate cfg r.epoch then cfg.valLoss r.epoch else 0] := by
  induction es generalizing mp with
  | nil => intro r hr; cases hr
  | cons e es ih =>
      intro r hr
      simp only [runLoop, List.mem_cons] at hr
      rcases hr with hr | hr
      · subst hr
        exact ⟨rfl, rfl⟩
      · exact ih _ r hr

/-- C9: in every iteration of the training loop, `scheduler.step` is called
exactly once, with the iteration's `val_loss`: the epoch's validation loss
when validation ran, and the reset value `0` (a number, never `None`) when
it did not. -/
theorem c9_scheduler_step_once (cfg : LoopConfig) (st : TrainState)
    (r : EpochResult) (hr : r ∈ trainingRun cfg st) :
    r.schedulerStepArgs.length = 1 ∧
    r.schedulerStepArgs
      = [if r.validated then cfg.valLoss r.epoch else 0] ∧
    (r.validated = false → r.schedulerStepArgs = [0]) := by
  obtain ⟨hv, hs⟩ := runLoop_schedulerStep cfg (loopEpochs st cfg.numEpochs)
    none r hr
  refine ⟨by rw [hs]; rfl, by rw [hv, hs], ?_⟩
  intro hnv
  rw [hs, ← hv, hnv]
  rfl

/-- Loop configuration for the C9 witness: validation every 3 epochs. -/
def cfgC9 : LoopConfig :=
  { numEpochs := 3, validationEpochs := 3, checkpointEpochs := 2,
    valLoss := fun _ => 7 }

/-- Fresh startup state for the C9 witness. -/
def stC9 : TrainState := initialState none 0 0

/-- Epoch-1 iteration record of the C9 witness run: no validation, no save,
one `scheduler.step(0)`. -/
def resC9 : EpochResult :=
  { epoch := 1, validated := false, savedFile := none,
    schedulerStepArgs := [0] }

/-- Witness for C9: at epoch 1 of a run validating every 3 epochs,
validation did not run and the single `scheduler.step` argument is `0`. -/
theorem c9_scheduler_step_once_witness :
    resC9.schedulerStepArgs = [0] :=
  (c9_scheduler_step_once cfgC9 stC9 resC9 (by decide)).2.2 rfl

/-- Loop configuration for the C6 counterexample: validation every 2 epochs,
checkpoint every epoch, 3 configured epochs, validation loss equal to the
epoch number (so stale losses are visible). -/
def cfgC6 : LoopConfig :=
  { numEpochs := 3, validationEpochs := 2, checkpointEpochs := 1,
    valLoss := fun e => (e : ℚ) }

/-- Fresh startup state for the C6 counterexample. -/
def stC6 : TrainState := initialState none 0 0

/-- C6 counterexample: with validation every 2 epochs and checkpoints every
epoch, the save at epoch 1 writes blob epoch 1 into a file whose name
carries epoch 0 and epoch 0's validation loss — the filename's epoch and
loss are not those of the epoch being checkpointed. -/
theorem c6_stale_filename_counterexample :
    (trainingRun cfgC6 stC6).get? 1
      = some { epoch := 1, validated := false,
               savedFile := some (some (0, 0), 1),
               schedulerStepArgs := [0] } ∧
    ¬ ((0 : ℤ) = 1) := by
  refine ⟨by decide, by decide⟩

/-- Invariant of `runLoop` behind the amended C6: whenever a save happens at
an epoch at which validation ran, the filename carries that very epoch's
number and validation loss, and the blob epoch is that epoch. -/
theorem runLoop_save_after_validation (cfg : LoopConfig) (es : List ℤ)
    (mp : Option (ℤ × ℚ)) :
    ∀ r ∈ runLoop cfg es mp, r.validated = true →
      ∀ fn be, r.savedFile = some (fn, be) →
        fn = some (r.epoch, cfg.valLoss r.epoch) ∧ be = r.epoch := by
  induction es generalizing mp with
  | nil => intro r hr; cases hr
  | cons e es ih =>
      intro r hr
      simp only [runLoop, List.mem_cons] at hr
      rcases hr with hr | hr
      · subst hr
        intro hv fn be hs
        simp only [epochStep] at hv hs ⊢
        rw [hv] at hs
        simp only [if_pos rfl] at hs
        by_cases hck : shouldCheckpoint cfg e
        · rw [if_pos hck] at hs
          injection hs with hs
          injection hs with h1 h2
          exact ⟨h1.symm, h2.symm⟩
        · rw [if_neg hck] at hs
          cases hs
      · exact ih _ r hr

/-- C6 amended: a checkpoint save persists the current epoch into the blob,
and whenever validation ran at that same epoch (in particular with the
default `validation_epochs = 1`) the filename encodes that epoch's number
and that epoch's validation loss; with mismatched intervals the filename
keeps the most recent validation epoch's values instead (see the
counterexample). -/
theorem c6_checkpoint_name_at_validated_epoch (cfg : LoopConfig)
    (st : TrainState) (r : EpochResult) (fn : Option (ℤ × ℚ)) (be : ℤ)
    (hr : r ∈ trainingRun cfg st) (hv : r.validated = true)
    (hs : r.savedFile = some (fn, be)) :
    fn = some (r.epoch, cfg.valLoss r.epoch) ∧ be = r.epoch :=
  runLoop_save_after_validation cfg (loopEpochs st cfg.numEpochs) none
    r hr hv fn be hs

/-- Loop configuration for the C6 witness: everything at interval 1. -/
def cfgC6W : LoopConfig :=
  { numEpochs := 1, validationEpochs := 1, checkpointEpochs := 1,
    valLoss := fun _ => 7 }

/-- Fresh startup state for the C6 witness. -/
def stC6W : TrainState := initialState none 0 0

/-- Epoch-0 iteration record of the C6 witness run. -/
def resC6W : EpochResult :=
  { epoch := 0, validated := true, savedFile := some (some (0, 7), 0),
    schedulerStepArgs := [7] }

/-- Witness for the amended C6: at epoch 0 of an interval-1 run, the saved
filename carries epoch 0 and its loss 7, and the blob epoch is 0. -/
theorem c6_checkpoint_name_at_validated_epoch_witness :
    (some (0, 7) : Option (ℤ × ℚ))
        = some (resC6W.epoch, cfgC6W.valLoss resC6W.epoch) ∧
    (0 : ℤ) = resC6W.epoch :=
  c6_checkpoint_name_at_validated_epoch cfgC6W stC6W resC6W
    (some (0, 7)) 0 (by decide) rfl rfl

/-- Membership in `labelImageIndexes`: the indices below `data.length` whose
image's labels contain `c`. -/
theorem mem_labelImageIndexes {data : List ImageRecord} {c i : ℕ} :
    i ∈ labelImageIndexes data c ↔
      i < data.length ∧ c ∈ (data.getD i default).labels := by
  simp [labelImageIndexes, List.mem_filter, List.mem_range]

/-- Every index a valid draw contributes for class `c` is an index of an
image containing class `c`. -/
theorem classSample_subset_label {data : List ImageRecord}
    {choices : ℕ → List ℕ} {c i : ℕ}
    (hb : ∀ p ∈ choices c, p < (labelImageIndexes data c).length)
    (hi : i ∈ classSample data choices c) :
    i ∈ labelImageIndexes data c := by
  rcases List.mem_map.mp hi with ⟨p, hp, rfl⟩
  have hlt := hb p hp
  rw [List.getD_eq_getElem _ _ hlt]
  exact List.getElem_mem hlt

/-- A duplicate-free list of naturals whose members all lie in `L` is no
longer than `L`. -/
theorem nodup_length_le_of_subset {l L : List ℕ} (hn : l.Nodup)
    (hsub : ∀ x ∈ l, x ∈ L) : l.length ≤ L.length :=
  calc l.length = l.toFinset.card := (List.toFinset_card_of_nodup hn).symm
  _ ≤ L.toFinset.card :=
      Finset.card_le_card
        (fun x hx => List.mem_toFinset.mpr (hsub x (List.mem_toFinset.mp hx)))
  _ ≤ L.length := L.toFinset_card_le

/-- C5: when some class `c` in `1..numClasses` has zero supporting images,
`_balance_data` computes `min_image_num = 0` (so the minimum exists — no
error is raised) and the balanced dataset is empty. -/
theorem c5_zero_support_class_empties_dataset (data : List ImageRecord)
    (numClasses c m : ℕ) (choices : ℕ → List ℕ)
    (hc : c ∈ Finset.Icc 1 numClasses)
    (hzero : (labelImageIndexes data c).length = 0)
    (hmin : minImageNum data numClasses = some m)
    (hvalid : ValidChoices data numClasses m choices) :
    m = 0 ∧ balance_data data numClasses choices = [] := by
  obtain ⟨hc1, hcN⟩ := Finset.mem_Icc.mp hc
  have hmem : (0 : ℕ) ∈ labelStat data numClasses := by
    refine List.mem_map.mpr ⟨c - 1, List.mem_range.mpr (by omega), ?_⟩
    have hcc : c - 1 + 1 = c := by omega
    rw [hcc, hzero]
  have hm0 : m = 0 := by
    have h2 := List.min?_eq_some_iff'.mp hmin
    exact Nat.le_zero.mp (h2.2 0 hmem)
  subst hm0
  refine ⟨rfl, ?_⟩
  have hsampleNil : sampleImageIndexes data numClasses choices = [] := by
    refine List.eq_nil_iff_forall_not_mem.mpr (fun x hx => ?_)
    rcases List.mem_flatMap.mp hx with ⟨k, hk, hxk⟩
    have hkc : k + 1 ∈ Finset.Icc 1 numClasses :=
      Finset.mem_Icc.mpr ⟨by omega, by
        have := List.mem_range.mp hk; omega⟩
    have hlen := (hvalid (k + 1) hkc).1
    have : choices (k + 1) = [] := List.length_eq_zero.mp hlen
    rw [classSample, this] at hxk
    cases hxk
  unfold balance_data
  rw [hsampleNil]
  simp

/-- Dataset for the C5 witness: no images at all, one declared class. -/
def dataC5 : List ImageRecord := []

/-- Witness for C5: with zero images and one class, class 1 has zero
supporting images, the minimum is 0, and balancing yields the empty
dataset. -/
theorem c5_zero_support_class_empties_dataset_witness :
    (0 : ℕ) = 0 ∧ balance_data dataC5 1 (fun _ => []) = [] :=
  c5_zero_support_class_empties_dataset dataC5 1 1 0 (fun _ => [])
    (by decide) (by decide) (by decide) (by decide)

/-- Dataset for the C1 counterexample: image 0 carries classes 1 and 2,
images 1 and 2 carry class 1 only.  Class 1 is supported by 3 images,
class 2 by 1, so `min_image_num = 1`. -/
def dataC1 : List ImageRecord :=
  [ { image_id := "a", boxes := [(0, 0, 1, 1), (0, 0, 1, 1)],
      labels := [1, 2] }
  , { image_id := "b", boxes := [(0, 0, 1, 1)], labels := [1] }
  , { image_id := "c", boxes := [(0, 0, 1, 1)], labels := [1] } ]

/-- Achievable draw for the C1 counterexample: class 1 draws image 1, class
2 draws image 0. -/
def choicesC1 : ℕ → List ℕ := fun c => if c = 1 then [1] else [0]

/-- C1 counterexample: on `dataC1` the pre-balancing minimum is 1, yet for
the achievable draw `choicesC1` the balanced dataset keeps images 0 and 1,
both containing class 1 — 2 images with class 1, exceeding `min_count = 1`
(class 1 has 3 supporting images, so the claim's side condition holds). -/
theorem c1_balance_bound_counterexample :
    minImageNum dataC1 2 = some 1 ∧
    ValidChoices dataC1 2 1 choicesC1 ∧
    0 < (labelImageIndexes dataC1 1).length ∧
    numImagesWithClass (balance_data dataC1 2 choicesC1) 1 = 2 ∧
    ¬ (numImagesWithClass (balance_data dataC1 2 choicesC1) 1 ≤ 1) := by
  refine ⟨by decide, by decide, by decide, by decide, by decide⟩

/-- C1 amended: the per-class cap does hold on datasets whose images each
carry a single class (then an image with class `c` can only be drawn by
class `c` itself): for every class `c` in `1..numClasses` and valid draw at
`min_image_num = m`, the balanced dataset has at most `m` images containing
class `c`.  On multi-class images the bound can fail (see the
counterexample). -/
theorem c1_single_class_balance_bound (data : List ImageRecord)
    (numClasses m c : ℕ) (choices : ℕ → List ℕ)
    (hsingle : ∀ r ∈ data, ∀ a ∈ r.labels, ∀ b ∈ r.labels, a = b)
    (_hmin : minImageNum data numClasses = some m)
    (hvalid : ValidChoices data numClasses m choices)
    (hc : c ∈ Finset.Icc 1 numClasses) :
    numImagesWithClass (balance_data data numClasses choices) c ≤ m := by
  unfold numImagesWithClass balance_data
  rw [List.countP_map, List.countP_eq_length_filter]
  have hnodup :
      (((List.range data.length).filter
          (fun i => decide (i ∈ sampleImageIndexes data numClasses choices))).filter
        ((fun r => decide (c ∈ r.labels)) ∘ fun i => data.getD i default)).Nodup :=
    ((List.nodup_range _).filter _).filter _
  have hsub : ∀ x ∈ ((List.range data.length).filter
      (fun i => decide (i ∈ sampleImageIndexes data numClasses choices))).filter
        ((fun r => decide (c ∈ r.labels)) ∘ fun i => data.getD i default),
      x ∈ classSample data choices c := by
    intro x hx
    rcases List.mem_filter.mp hx with ⟨hx1, hx2⟩
    rcases List.mem_filter.mp hx1 with ⟨hxr, hxs⟩
    have hxlen : x < data.length := List.mem_range.mp hxr
    have hxsample : x ∈ sampleImageIndexes data numClasses choices :=
      of_decide_eq_true hxs
    have hxc : c ∈ (data.getD x default).labels := of_decide_eq_true hx2
    rcases List.mem_flatMap.mp hxsample with ⟨k, hk, hxk⟩
    have hkc : k + 1 ∈ Finset.Icc 1 numClasses :=
      Finset.mem_Icc.mpr ⟨by omega, by
        have := List.mem_range.mp hk; omega⟩
    have hxlabel : x ∈ labelImageIndexes data (k + 1) :=
      classSample_subset_label (hvalid (k + 1) hkc).2 hxk
    have hxk1 : (k + 1) ∈ (data.getD x default).labels :=
      (mem_labelImageIndexes.mp hxlabel).2
    have hrec : data.getD x default ∈ data := by
      rw [List.getD_eq_getElem _ _ hxlen]
      exact List.getElem_mem hxlen
    have hck : c = k + 1 := hsingle _ hrec c hxc (k + 1) hxk1
    rw [hck]
    exact hxk
  calc (((List.range data.length).filter
        (fun i => decide (i ∈ sampleImageIndexes data numClasses choices))).filter
          ((fun r => decide (c ∈ r.labels)) ∘ fun i => data.getD i default)).length
      ≤ (classSample data choices c).length :=
        nodup_length_le_of_subset hnodup hsub
    _ = (choices c).length := List.length_map _ _
    _ = m := (hvalid c hc).1

/-- Single-class dataset for the C1 witness. -/
def dataC1W : List ImageRecord :=
  [ { image_id := "a", boxes := [(0, 0, 1, 1)], labels := [1] }
  , { image_id := "b", boxes := [(0, 0, 1, 1)], labels := [2] } ]

/-- Draw for the C1 witness: each class draws its only image. -/
def choicesC1W : ℕ → List ℕ := fun _ => [0]

/-- Witness for the amended C1: on a single-class dataset with
`min_image_num = 1`, the balanced dataset has at most 1 image with
class 1. -/
theorem c1_single_class_balance_bound_witness :
    numImagesWithClass (balance_data dataC1W 2 choicesC1W) 1 ≤ 1 :=
  c1_single_class_balance_bound dataC1W 2 1 1 choicesC1W
    (by decide) (by decide) (by decide) (by decide)

end PytorchSSD
